import Mathlib

/-!
Shallow embedding of the RideSwift cab-booking application
(`src/CabBookingApp.jsx`) for verification of its specification.

The embedded parts are: the fare table and fare computation
(`VEHICLE_RATES`, `handleEstimate`), the mock distance function
(`mockDistance`), the booking creation handler (`handleBooking`),
the booking snapshot projections (`useBookings` sort,
`UserDashboardView` filter, `AdminDashboardView`), and the status
transition operation (the admin gate of `AdminDashboardView`, its
per-status action buttons, and `handleUpdateStatus`).
-/

namespace CabBooking

/-- Fare table `VEHICLE_RATES` (src lines 18-23): base fare and per-km
rate, in cents. `none` for a vehicle type not in the table. -/
def VEHICLE_RATES : String → Option (ℚ × ℚ)
  | "Cab" => some (500, 150)
  | "Auto" => some (200, 100)
  | "Bike" => some (100, 50)
  | "Taxi" => some (600, 180)
  | _ => none

/-- Base fare in dollars, as displayed by `VehicleDetailsView`
(src lines 530-533): Cab $5.00, Auto $2.00, Bike $1.00, Taxi $6.00. -/
def baseFare : String → Option ℚ
  | "Cab" => some 5
  | "Auto" => some 2
  | "Bike" => some 1
  | "Taxi" => some 6
  | _ => none

/-- Per-kilometer rate in dollars, as displayed by `VehicleDetailsView`
(src lines 530-533): Cab $1.50/km, Auto $1.00/km, Bike $0.50/km,
Taxi $1.80/km. -/
def perKmRate : String → Option ℚ
  | "Cab" => some (3 / 2)
  | "Auto" => some 1
  | "Bike" => some (1 / 2)
  | "Taxi" => some (9 / 5)
  | _ => none

/-- Fare in dollars as computed by `handleEstimate` (src lines 286-287):
`(base + dist * rate) / 100`, converting cents to dollars. -/
def computeFare (vehicleType : String) (dist : ℚ) : Option ℚ :=
  (VEHICLE_RATES vehicleType).map (fun p => (p.1 + dist * p.2) / 100)

/-- The UTF-16 code units of a character, as JavaScript's
`String.prototype.split('')` / `charCodeAt` expose a string. -/
def utf16Units (c : Char) : List Nat :=
  if c.toNat < 65536 then [c.toNat]
  else [55296 + (c.toNat - 65536) / 1024, 56320 + (c.toNat - 65536) % 1024]

/-- JavaScript `ToInt32`: reduce an integer into `[-2^31, 2^31)`,
as the `<<` operator does to its operand and result. -/
def toInt32 (x : Int) : Int := (x + 2 ^ 31) % 2 ^ 32 - 2 ^ 31

/-- One step of the reduce in `mockDistance`'s `hash` (src line 28):
`((a << 5) - a) + b.charCodeAt(0)`.  `a << 5` wraps to a signed 32-bit
value; the outer subtraction and addition are exact. -/
def hashStep (a : Int) (code : Nat) : Int := toInt32 (a * 32) - a + code

/-- The `hash` closure inside `mockDistance` (src line 28): fold
`hashStep` over the string's UTF-16 code units starting from 0. -/
def jsHash (s : String) : Int := (s.data.flatMap utf16Units).foldl hashStep 0

/-- `mockDistance` (src lines 26-31), as the numeric distance value:
`Math.abs(hash(pickup) - hash(dropoff)) % 20 + 5`.  The source then
renders it with `toFixed(1)`; the value itself is a natural number. -/
def mockDistance (pickup dropoff : String) : Nat :=
  (jsHash pickup - jsHash dropoff).natAbs % 20 + 5

/-- A booking document as written by `handleBooking` (src lines 310-322).
Field names follow the source.  `createdAt` is the creation timestamp
(milliseconds), used as the sort key in `useBookings`. -/
structure Booking where
  id : Nat
  userId : String
  userEmail : String
  pickup : String
  dropoff : String
  vehicleType : String
  distance : String
  fare : String
  dateTime : String
  status : String
  createdAt : Int
  paymentStatus : String
deriving Repr, DecidableEq

/-- An authenticated identity as delivered by the identity provider:
a stable uid, an optional email, and the anonymous flag. -/
structure Identity where
  uid : String
  email : Option String
  isAnonymous : Bool
deriving Repr, DecidableEq

/-- The admin capability check: `user?.email === 'admin@cabapp.com'`
(src lines 144 and 669). -/
def isAdmin : Option Identity → Bool
  | some u => u.email == some "admin@cabapp.com"
  | none => false

/-- The sort applied by `useBookings` to every delivered snapshot
(src line 120): `allBookings.sort((a, b) => b.createdAt - a.createdAt)`,
a stable sort by descending `createdAt`. -/
def sortBookings (l : List Booking) : List Booking :=
  l.mergeSort (fun a b => decide (b.createdAt ≤ a.createdAt))

/-- The rider projection: the sorted snapshot from `useBookings`
(src line 120) filtered by `UserDashboardView` to the viewer's own
bookings, `bookings.filter(b => b.userId === user.uid)` (src line 586). -/
def riderProjection (snapshot : List Booking) (uid : String) : List Booking :=
  (sortBookings snapshot).filter (fun b => b.userId == uid)

/-- The admin projection: `AdminDashboardView` renders the sorted
snapshot from `useBookings` unfiltered (src lines 710, 731). -/
def adminProjection (snapshot : List Booking) : List Booking :=
  sortBookings snapshot

/-- The outcomes of a status-transition attempt surfaced by the
application: the access gate, a missing document, or no action button
offered for the requested edge. -/
inductive TransitionError where
  | Forbidden
  | NotFound
  | InvalidTransition
deriving Repr, DecidableEq

/-- Which status-transition buttons `AdminDashboardView` renders for a
booking (src lines 748, 757, 766): Accept when `Pending`, Complete when
`Accepted`, Cancel when neither `Canceled` nor `Completed`. -/
def edgeOffered (cur target : String) : Bool :=
  (cur == "Pending" && target == "Accepted") ||
  (cur == "Accepted" && target == "Completed") ||
  (cur != "Canceled" && cur != "Completed" && target == "Canceled")

/-- The workflow table as given in the specification (§4.1):
Pending→Accepted, Accepted→Completed, Pending→Canceled,
Accepted→Canceled.  Used only to compare the code's behaviour with
the specified table. -/
def specEdge (cur target : String) : Prop :=
  (cur = "Pending" ∧ target = "Accepted") ∨
  (cur = "Accepted" ∧ target = "Completed") ∨
  (cur = "Pending" ∧ target = "Canceled") ∨
  (cur = "Accepted" ∧ target = "Canceled")

instance (cur target : String) : Decidable (specEdge cur target) := by
  unfold specEdge; infer_instance

/-- Look a booking up by document id in the store. -/
def findBooking (store : List Booking) (id : Nat) : Option Booking :=
  store.find? (fun b => b.id == id)

/-- The single-field merge performed by `handleUpdateStatus`
(src line 683): `updateDoc(docRef, ...)` writes only the `status`
field of the targeted document. -/
def updateStatus (store : List Booking) (id : Nat) (newStatus : String) :
    List Booking :=
  store.map (fun b => if b.id == id then { b with status := newStatus } else b)

/-- The status-transition operation as issued through the application:
the `AdminDashboardView` access gate (src line 669) denies non-admin
callers; a booking id unknown to the store makes `updateDoc` fail inside
`handleUpdateStatus` (src lines 685-688); an edge for which no action
button is rendered (src lines 748-774) cannot be requested; otherwise
`handleUpdateStatus` writes the new status (src line 683). -/
def transition (caller : Option Identity) (store : List Booking) (id : Nat)
    (target : String) : Except TransitionError (List Booking) :=
  if isAdmin caller then
    match findBooking store id with
    | none => .error .NotFound
    | some b =>
      if edgeOffered b.status target then .ok (updateStatus store id target)
      else .error .InvalidTransition
  else .error .Forbidden

/-- The store after a transition attempt: unchanged on any failure. -/
def applyTransition (caller : Option Identity) (store : List Booking)
    (id : Nat) (target : String) : List Booking :=
  match transition caller store id target with
  | .ok s => s
  | .error _ => store

/-- The booking-form inputs from which `handleBooking` builds a document
(src lines 310-322): locations, vehicle type, the mock distance and the
fare estimate as already-rendered strings, and the scheduled time. -/
structure BookingForm where
  pickup : String
  dropoff : String
  vehicleType : String
  distStr : String
  fareStr : String
  dateTime : String
deriving Repr, DecidableEq

/-- The `newBooking` document built by `handleBooking` (src lines
310-322): rider id and label from the caller, `status: 'Pending'`,
`paymentStatus: 'Pending'`, distance suffixed with " km" and fare
prefixed with "$" as in the source template strings. -/
def mkBooking (newId : Nat) (u : Identity) (form : BookingForm)
    (createdAt : Int) : Booking :=
  { id := newId
    userId := u.uid
    userEmail := u.email.getD "Anonymous User"
    pickup := form.pickup
    dropoff := form.dropoff
    vehicleType := form.vehicleType
    distance := form.distStr ++ " km"
    fare := "$" ++ form.fareStr
    dateTime := form.dateTime
    status := "Pending"
    createdAt := createdAt
    paymentStatus := "Pending" }

/-- `handleBooking` (src lines 295-337): an unauthenticated or anonymous
caller is sent to the login page and nothing is written (src lines
297-301); with no fare estimate the handler returns without writing
(src lines 303-307, the state variable is not refreshed synchronously);
otherwise the new document is appended (`addDoc`, src line 324) and the
caller is navigated to the dashboard (src line 331).  Returns the new
store and the page navigated to. -/
def handleBooking (user : Option Identity) (fareEstimate : Option String)
    (store : List Booking) (newId : Nat) (form : BookingForm)
    (createdAt : Int) (curPage : String) : List Booking × String :=
  match user with
  | none => (store, "login")
  | some u =>
    if u.isAnonymous then (store, "login")
    else
      match fareEstimate with
      | none => (store, curPage)
      | some _ => (store ++ [mkBooking newId u form createdAt], "dashboard")

/-- The statuses the specification's data model allows. -/
def validStatuses : List String :=
  ["Pending", "Accepted", "Completed", "Canceled"]

/-- Boolean check that every booking in a store carries one of the four
workflow statuses. -/
def statusOKb (store : List Booking) : Bool :=
  store.all (fun b => decide (b.status ∈ validStatuses))

/-- The store-mutating events the application can issue: creating a
booking through `handleBooking`, or attempting a status transition
through the admin panel. -/
inductive Event where
  | create (user : Option Identity) (fareEstimate : Option String)
      (newId : Nat) (form : BookingForm) (createdAt : Int) (curPage : String)
  | update (caller : Option Identity) (id : Nat) (target : String)

/-- Apply one application event to the store. -/
def applyEvent (store : List Booking) : Event → List Booking
  | .create u fe newId form createdAt page =>
      (handleBooking u fe store newId form createdAt page).1
  | .update caller id target => applyTransition caller store id target

/-- A booking with its status field blanked, used to state that a
transition changes no field other than `status`. -/
def eraseStatus (b : Booking) : Booking := { b with status := "" }

/-! ### Concrete data used by the witness theorems -/

/-- A registered non-admin rider identity. -/
def demoRider : Identity :=
  { uid := "U1", email := some "rider@mail.com", isAnonymous := false }

/-- The privileged admin identity. -/
def demoAdmin : Option Identity :=
  some { uid := "A0", email := some "admin@cabapp.com", isAnonymous := false }

/-- A freshly created booking of `demoRider`. -/
def demoBooking : Booking :=
  { id := 1, userId := "U1", userEmail := "rider@mail.com",
    pickup := "Downtown", dropoff := "Airport", vehicleType := "Cab",
    distance := "10.0 km", fare := "$20.00", dateTime := "2026-01-01T10:00",
    status := "Pending", createdAt := 0, paymentStatus := "Pending" }

/-- A one-booking store holding `demoBooking`. -/
def demoStore : List Booking := [demoBooking]

/-- A booking already in the terminal Completed state. -/
def demoDone : Booking := { demoBooking with id := 2, status := "Completed" }

/-- A one-booking store holding `demoDone`. -/
def demoStoreDone : List Booking := [demoDone]

/-- A filled booking form. -/
def demoForm : BookingForm :=
  { pickup := "Downtown", dropoff := "Airport", vehicleType := "Cab",
    distStr := "10.0", fareStr := "20.00", dateTime := "2026-01-01T10:00" }

/-- The demo store after accepting `demoBooking`. -/
def demoUpdated : List Booking := updateStatus demoStore 1 "Accepted"

/-! ### Helper lemmas -/

lemma edgeOffered_eq_specEdge (cur target : String) (h : cur ∈ validStatuses) :
    edgeOffered cur target = true ↔ specEdge cur target := by
  simp only [validStatuses, List.mem_cons, List.not_mem_nil, or_false] at h
  rcases h with h | h | h | h <;> subst h <;>
    simp [edgeOffered, specEdge]

lemma edgeOffered_self (cur : String) : edgeOffered cur cur = false := by
  by_cases h1 : cur = "Pending"
  · subst h1; decide
  by_cases h2 : cur = "Accepted"
  · subst h2; decide
  by_cases h3 : cur = "Canceled"
  · subst h3; decide
  simp [edgeOffered, h1, h2, h3]

lemma edgeOffered_terminal (cur : String) (target : String)
    (h : cur = "Completed" ∨ cur = "Canceled") :
    edgeOffered cur target = false := by
  rcases h with h | h <;> subst h <;> simp [edgeOffered]

lemma edgeOffered_target_mem {cur target : String}
    (h : edgeOffered cur target = true) : target ∈ validStatuses := by
  simp only [edgeOffered, Bool.or_eq_true, Bool.and_eq_true, beq_iff_eq,
    bne_iff_ne] at h
  simp only [validStatuses, List.mem_cons, List.not_mem_nil, or_false]
  tauto

lemma transition_ok_inv {caller : Option Identity} {store : List Booking}
    {id : Nat} {target : String} {s : List Booking}
    (h : transition caller store id target = Except.ok s) :
    isAdmin caller = true ∧ ∃ b, findBooking store id = some b ∧
      edgeOffered b.status target = true ∧ s = updateStatus store id target := by
  by_cases hadm : isAdmin caller = true
  · rcases hfb : findBooking store id with _ | b
    · simp [transition, hadm, hfb] at h
    · by_cases he : edgeOffered b.status target = true
      · simp only [transition, hadm, if_true, hfb, he] at h
        exact ⟨hadm, b, rfl, he, (Except.ok.inj h).symm⟩
      · simp [transition, hadm, hfb, he] at h
  · simp [transition, hadm] at h

lemma applyTransition_error {caller : Option Identity} {store : List Booking}
    {id : Nat} {target : String} {e : TransitionError}
    (h : transition caller store id target = Except.error e) :
    applyTransition caller store id target = store := by
  simp [applyTransition, h]

lemma findBooking_updateStatus_ne (store : List Booking) {tid id : Nat}
    (target : String) (h : tid ≠ id) :
    findBooking (updateStatus store tid target) id = findBooking store id := by
  unfold findBooking updateStatus
  rw [List.find?_map]
  have hp : ((fun b : Booking => b.id == id) ∘
      fun b : Booking => if b.id == tid then { b with status := target } else b) =
      fun b : Booking => b.id == id := by
    funext b; by_cases hb : b.id = tid <;> simp [hb]
  rw [hp]
  rcases hf : store.find? (fun b => b.id == id) with _ | b
  · rw [hf]; rfl
  · have hbid : b.id = id := by simpa using List.find?_some hf
    rw [hf]
    simp [hbid, Ne.symm h]

lemma sortBookings_perm (l : List Booking) : (sortBookings l).Perm l :=
  List.mergeSort_perm l _

lemma sortBookings_sorted (l : List Booking) :
    List.Sorted (fun a b : Booking => b.createdAt ≤ a.createdAt)
      (sortBookings l) := by
  have h := @List.sorted_mergeSort Booking
    (fun a b : Booking => decide (b.createdAt ≤ a.createdAt))
    (fun a b c h₁ h₂ => by
      simp only [decide_eq_true_eq] at *
      exact le_trans h₂ h₁)
    (fun a b => by
      simp only [Bool.or_eq_true, decide_eq_true_eq]
      exact le_total b.createdAt a.createdAt)
    l
  exact h.imp (fun hab => of_decide_eq_true hab)

lemma statusOKb_iff (s : List Booking) :
    statusOKb s = true ↔ ∀ b ∈ s, b.status ∈ validStatuses := by
  simp [statusOKb, List.all_eq_true]

lemma statusOK_updateStatus {s : List Booking} {id : Nat} {target : String}
    (h : ∀ b ∈ s, b.status ∈ validStatuses) (ht : target ∈ validStatuses) :
    ∀ b ∈ updateStatus s id target, b.status ∈ validStatuses := by
  intro b hb
  simp only [updateStatus, List.mem_map] at hb
  obtain ⟨a, ha, rfl⟩ := hb
  by_cases hid : a.id = id
  · simpa [hid] using ht
  · simpa [hid] using h a ha

lemma statusOKb_applyEvent (s : List Booking) (e : Event)
    (h : statusOKb s = true) : statusOKb (applyEvent s e) = true := by
  rw [statusOKb_iff] at *
  cases e with
  | create u fe newId form createdAt page =>
    rcases u with _ | u
    · exact h
    · simp only [applyEvent, handleBooking]
      by_cases ha : u.isAnonymous = true
      · simpa [ha] using h
      · rcases fe with _ | f
        · simpa [ha] using h
        · simp only [Bool.not_eq_true] at ha
          simp only [ha, Bool.false_eq_true, if_false]
          intro b hb
          rcases List.mem_append.mp hb with hb | hb
          · exact h b hb
          · simp only [List.mem_singleton] at hb
            subst hb
            simp [mkBooking, validStatuses]
  | update caller id target =>
    rcases htr : transition caller s id target with e' | s'
    · simpa [applyEvent, applyTransition, htr] using h
    · obtain ⟨-, b, -, he, hs⟩ := transition_ok_inv htr
      subst hs
      simpa [applyEvent, applyTransition, htr] using
        statusOK_updateStatus h (edgeOffered_target_mem he)

/-! ### Claim theorems -/

/-- C1: for an admin caller and a booking carrying one of the four
workflow statuses, a transition request whose (current, target) pair is
not an edge of the table Pending→Accepted, Accepted→Completed,
Pending→Canceled, Accepted→Canceled fails with `InvalidTransition` and
leaves the store unchanged; in particular a request whose target equals
the current status always fails with `InvalidTransition`. -/
theorem invalid_edge_rejected (caller : Option Identity)
    (store : List Booking) (id : Nat) (b : Booking) (target : String)
    (hadm : isAdmin caller = true) (hb : findBooking store id = some b)
    (hst : b.status ∈ validStatuses) (hne : ¬ specEdge b.status target) :
    transition caller store id target =
      Except.error TransitionError.InvalidTransition ∧
    applyTransition caller store id target = store ∧
    transition caller store id b.status =
      Except.error TransitionError.InvalidTransition := by
  have he : edgeOffered b.status target = false := by
    rcases Bool.eq_false_or_eq_true (edgeOffered b.status target) with h | h
    · exact absurd ((edgeOffered_eq_specEdge _ _ hst).mp h) hne
    · exact h
  have hself : edgeOffered b.status b.status = false := edgeOffered_self _
  refine ⟨?_, ?_, ?_⟩
  · simp [transition, hadm, hb, he]
  · simp [applyTransition, transition, hadm, hb, he]
  · simp [transition, hadm, hb, hself]

/-- Witness for C1: the admin requests Completed on a Pending booking. -/
theorem invalid_edge_rejected_witness :
    (isAdmin demoAdmin = true ∧ findBooking demoStore 1 = some demoBooking ∧
     demoBooking.status ∈ validStatuses ∧
     ¬ specEdge demoBooking.status "Completed") ∧
    (transition demoAdmin demoStore 1 "Completed" =
       Except.error TransitionError.InvalidTransition ∧
     applyTransition demoAdmin demoStore 1 "Completed" = demoStore ∧
     transition demoAdmin demoStore 1 demoBooking.status =
       Except.error TransitionError.InvalidTransition) :=
  ⟨⟨by decide, by decide, by decide, by decide⟩,
    invalid_edge_rejected demoAdmin demoStore 1 demoBooking "Completed"
      (by decide) (by decide) (by decide) (by decide)⟩

/-- C2: Completed and Canceled are terminal: every transition attempt on
a booking found in such a status fails and leaves the store unchanged,
and after any transition attempt on any booking the terminal booking is
still found with its record intact. -/
theorem terminal_states_frozen (caller caller2 : Option Identity)
    (store : List Booking) (id tid : Nat) (b : Booking)
    (target target2 : String) (hb : findBooking store id = some b)
    (hterm : b.status = "Completed" ∨ b.status = "Canceled") :
    (∃ e, transition caller store id target = Except.error e) ∧
    applyTransition caller store id target = store ∧
    findBooking (applyTransition caller2 store tid target2) id = some b := by
  have hoff : ∀ t, edgeOffered b.status t = false :=
    fun t => edgeOffered_terminal _ t hterm
  have h1 : ∃ e, transition caller store id target = Except.error e := by
    by_cases hadm : isAdmin caller = true
    · exact ⟨TransitionError.InvalidTransition,
        by simp [transition, hadm, hb, hoff]⟩
    · exact ⟨TransitionError.Forbidden, by simp [transition, hadm]⟩
  obtain ⟨e, he⟩ := h1
  refine ⟨⟨e, he⟩, applyTransition_error he, ?_⟩
  rcases htr : transition caller2 store tid target2 with e2 | s
  · rw [applyTransition_error htr]; exact hb
  · obtain ⟨hadm2, b2, hfb2, hoff2, hs⟩ := transition_ok_inv htr
    subst hs
    have happ : applyTransition caller2 store tid target2 =
        updateStatus store tid target2 := by simp [applyTransition, htr]
    rw [happ]
    by_cases htid : tid = id
    · subst htid
      rw [hb] at hfb2
      have hbb : b2 = b := (Option.some.inj hfb2).symm
      rw [hbb, hoff target2] at hoff2
      exact absurd hoff2 (by decide)
    · rw [findBooking_updateStatus_ne store target2 htid]
      exact hb

/-- Witness for C2: a Completed booking survives a cancel attempt and a
further accept attempt. -/
theorem terminal_states_frozen_witness :
    (findBooking demoStoreDone 2 = some demoDone ∧
     (demoDone.status = "Completed" ∨ demoDone.status = "Canceled")) ∧
    ((∃ e, transition demoAdmin demoStoreDone 2 "Canceled" =
        Except.error e) ∧
     applyTransition demoAdmin demoStoreDone 2 "Canceled" = demoStoreDone ∧
     findBooking (applyTransition demoAdmin demoStoreDone 2 "Accepted") 2 =
       some demoDone) :=
  ⟨⟨by decide, by decide⟩,
    terminal_states_frozen demoAdmin demoAdmin demoStoreDone 2 2 demoDone
      "Canceled" "Accepted" (by decide) (by decide)⟩

/-- C3: a caller without the admin capability — any identity whose email
differs from the privileged admin email, including the absent
identity — has every transition attempt fail with `Forbidden`, leaving
the store unchanged. -/
theorem non_admin_forbidden (caller : Option Identity)
    (store : List Booking) (id : Nat) (target : String)
    (h : isAdmin caller = false) :
    transition caller store id target =
      Except.error TransitionError.Forbidden ∧
    applyTransition caller store id target = store := by
  have h' : ¬ isAdmin caller = true := by simp [h]
  have hf : transition caller store id target =
      Except.error TransitionError.Forbidden := by simp [transition, h']
  exact ⟨hf, applyTransition_error hf⟩

/-- Witness for C3: the non-admin rider U1 attempts Completed on their
own Pending booking; the attempt is Forbidden and the store unchanged. -/
theorem non_admin_forbidden_witness :
    isAdmin (some demoRider) = false ∧
    (transition (some demoRider) demoStore 1 "Completed" =
       Except.error TransitionError.Forbidden ∧
     applyTransition (some demoRider) demoStore 1 "Completed" = demoStore) :=
  ⟨by decide,
    non_admin_forbidden (some demoRider) demoStore 1 "Completed" (by decide)⟩

/-- C4: fare computation is the deterministic function
base + rate × distance of the vehicle class and distance, where the base
and per-km rate are those of the displayed price table; for Cab at
10.0 km the fare is exactly 20.00. -/
theorem fare_formula_deterministic (vt : String) (dist : ℚ)
    (hvt : vt ∈ ["Cab", "Auto", "Bike", "Taxi"]) :
    (∃ b r, baseFare vt = some b ∧ perKmRate vt = some r ∧
      computeFare vt dist = some (b + r * dist)) ∧
    computeFare "Cab" 10 = some 20 := by
  constructor
  · fin_cases hvt
    · exact ⟨5, 3 / 2, rfl, rfl, by simp [computeFare, VEHICLE_RATES]; ring⟩
    · exact ⟨2, 1, rfl, rfl, by simp [computeFare, VEHICLE_RATES]; ring⟩
    · exact ⟨1, 1 / 2, rfl, rfl, by simp [computeFare, VEHICLE_RATES]; ring⟩
    · exact ⟨6, 9 / 5, rfl, rfl, by simp [computeFare, VEHICLE_RATES]; ring⟩
  · simp [computeFare, VEHICLE_RATES]
    norm_num

/-- Witness for C4 at vehicle class Cab and distance 10. -/
theorem fare_formula_deterministic_witness :
    ("Cab" : String) ∈ ["Cab", "Auto", "Bike", "Taxi"] ∧
    ((∃ b r, baseFare "Cab" = some b ∧ perKmRate "Cab" = some r ∧
      computeFare "Cab" (10 : ℚ) = some (b + r * 10)) ∧
    computeFare "Cab" 10 = some 20) :=
  ⟨by decide, fare_formula_deterministic "Cab" 10 (by decide)⟩

/-- C5: the rider projection returns exactly the snapshot records whose
`userId` equals the viewing identity — a permutation of the plain
filter — sorted by descending `createdAt`, and it is empty exactly when
that identity has no bookings (an empty sequence, never an error). -/
theorem rider_projection_spec (snapshot : List Booking) (uid : String) :
    (riderProjection snapshot uid).Perm
      (snapshot.filter (fun b => b.userId == uid)) ∧
    List.Sorted (fun a b : Booking => b.createdAt ≤ a.createdAt)
      (riderProjection snapshot uid) ∧
    (riderProjection snapshot uid = [] ↔
      snapshot.filter (fun b => b.userId == uid) = []) := by
  have hperm : (riderProjection snapshot uid).Perm
      (snapshot.filter (fun b => b.userId == uid)) :=
    (sortBookings_perm snapshot).filter _
  refine ⟨hperm, ?_, ?_⟩
  · exact List.Pairwise.sublist (List.filter_sublist _)
      (sortBookings_sorted snapshot)
  · have hlen := hperm.length_eq
    constructor
    · intro h0
      have hz : (snapshot.filter (fun b => b.userId == uid)).length = 0 := by
        rw [← hlen, h0]; rfl
      exact List.length_eq_zero.mp hz
    · intro h0
      have hz : (riderProjection snapshot uid).length = 0 := by
        rw [hlen, h0]; rfl
      exact List.length_eq_zero.mp hz

/-- C6: the admin projection is the full snapshot with no record
filtered out — a permutation of it — reordered by descending
`createdAt`. -/
theorem admin_projection_spec (snapshot : List Booking) :
    (adminProjection snapshot).Perm snapshot ∧
    List.Sorted (fun a b : Booking => b.createdAt ≤ a.createdAt)
      (adminProjection snapshot) :=
  ⟨sortBookings_perm snapshot, sortBookings_sorted snapshot⟩

/-- C7: a successful transition writes only the status field of the
targeted booking: the result is the pointwise single-field update, all
status-erased records (hence every other field, `userId` among them) are
unchanged, and the store keeps its length. -/
theorem transition_single_field_update (caller : Option Identity)
    (store : List Booking) (id : Nat) (target : String) (s : List Booking)
    (h : transition caller store id target = Except.ok s) :
    s = store.map
      (fun b => if b.id == id then { b with status := target } else b) ∧
    s.map eraseStatus = store.map eraseStatus ∧
    s.map (fun b => b.userId) = store.map (fun b => b.userId) ∧
    s.length = store.length := by
  obtain ⟨-, b, -, -, hs⟩ := transition_ok_inv h
  subst hs
  refine ⟨rfl, ?_, ?_, by simp [updateStatus]⟩
  · simp only [updateStatus, List.map_map]
    congr 1
    funext b
    by_cases hb : b.id = id <;> simp [Function.comp, hb, eraseStatus]
  · simp only [updateStatus, List.map_map]
    congr 1
    funext b
    by_cases hb : b.id = id <;> simp [Function.comp, hb]

/-- Witness for C7: the admin accepts the demo Pending booking. -/
theorem transition_single_field_update_witness :
    transition demoAdmin demoStore 1 "Accepted" = Except.ok demoUpdated ∧
    (demoUpdated = demoStore.map
      (fun b => if b.id == 1 then { b with status := "Accepted" } else b) ∧
    demoUpdated.map eraseStatus = demoStore.map eraseStatus ∧
    demoUpdated.map (fun b => b.userId) = demoStore.map (fun b => b.userId) ∧
    demoUpdated.length = demoStore.length) :=
  ⟨rfl,
    transition_single_field_update demoAdmin demoStore 1 "Accepted"
      demoUpdated rfl⟩

/-- C8: when the caller identity is absent or anonymous, `handleBooking`
writes nothing to the store and navigates to the login page. -/
theorem anonymous_create_redirects_login (user : Option Identity)
    (fareEstimate : Option String) (store : List Booking) (newId : Nat)
    (form : BookingForm) (createdAt : Int) (curPage : String)
    (h : user = none ∨ ∃ u, user = some u ∧ u.isAnonymous = true) :
    handleBooking user fareEstimate store newId form createdAt curPage =
      (store, "login") := by
  rcases h with h | ⟨u, hu, ha⟩
  · subst h; rfl
  · subst hu; simp [handleBooking, ha]

/-- Witness for C8: the absent identity attempts a booking. -/
theorem anonymous_create_redirects_login_witness :
    ((none : Option Identity) = none ∨
      ∃ u, (none : Option Identity) = some u ∧ u.isAnonymous = true) ∧
    handleBooking none (some "20.00") demoStore 3 demoForm 1 "home" =
      (demoStore, "login") :=
  ⟨Or.inl rfl,
    anonymous_create_redirects_login none (some "20.00") demoStore 3
      demoForm 1 "home" (Or.inl rfl)⟩

/-- C9: every store reachable from the empty store through application
events (booking creation and admin status updates) contains only
bookings whose status is one of Pending, Accepted, Completed, Canceled,
and a created booking carries status Pending. -/
theorem status_always_valid (trace : List Event) (newId : Nat)
    (u : Identity) (form : BookingForm) (createdAt : Int) :
    (mkBooking newId u form createdAt).status = "Pending" ∧
    statusOKb (List.foldl applyEvent [] trace) = true := by
  refine ⟨rfl, ?_⟩
  suffices key : ∀ (s : List Booking), statusOKb s = true →
      statusOKb (List.foldl applyEvent s trace) = true by
    exact key [] rfl
  induction trace with
  | nil => exact fun s hs => hs
  | cons e rest ih =>
    intro s hs
    exact ih (applyEvent s e) (statusOKb_applyEvent s e hs)

/-- C10: the mock distance is a deterministic function of the two
location strings, always between 5 and 24 kilometers inclusive (so in
particular at most 24.9); identical endpoints give exactly 5, never 0;
and the fare computed from it for any vehicle class of the table is
strictly positive. -/
theorem mock_distance_bounds (pickup dropoff vt : String)
    (hvt : vt ∈ ["Cab", "Auto", "Bike", "Taxi"]) :
    5 ≤ mockDistance pickup dropoff ∧
    mockDistance pickup dropoff ≤ 24 ∧
    ((mockDistance pickup dropoff : ℚ) ≤ 249 / 10) ∧
    mockDistance pickup pickup = 5 ∧
    ∃ f, computeFare vt (mockDistance pickup dropoff) = some f ∧ 0 < f := by
  have hmod : (jsHash pickup - jsHash dropoff).natAbs % 20 < 20 :=
    Nat.mod_lt _ (by norm_num)
  have h5 : 5 ≤ mockDistance pickup dropoff := by unfold mockDistance; omega
  have h24 : mockDistance pickup dropoff ≤ 24 := by unfold mockDistance; omega
  refine ⟨h5, h24, ?_, ?_, ?_⟩
  · have hc : (mockDistance pickup dropoff : ℚ) ≤ 24 := by exact_mod_cast h24
    linarith
  · unfold mockDistance
    simp [sub_self]
  · fin_cases hvt
    · exact ⟨(500 + (mockDistance pickup dropoff : ℚ) * 150) / 100,
        by simp [computeFare, VEHICLE_RATES], by positivity⟩
    · exact ⟨(200 + (mockDistance pickup dropoff : ℚ) * 100) / 100,
        by simp [computeFare, VEHICLE_RATES], by positivity⟩
    · exact ⟨(100 + (mockDistance pickup dropoff : ℚ) * 50) / 100,
        by simp [computeFare, VEHICLE_RATES], by positivity⟩
    · exact ⟨(600 + (mockDistance pickup dropoff : ℚ) * 180) / 100,
        by simp [computeFare, VEHICLE_RATES], by positivity⟩

/-- Witness for C10 at two concrete location strings and class Cab. -/
theorem mock_distance_bounds_witness :
    ("Cab" : String) ∈ ["Cab", "Auto", "Bike", "Taxi"] ∧
    (5 ≤ mockDistance "Downtown" "Airport" ∧
    mockDistance "Downtown" "Airport" ≤ 24 ∧
    ((mockDistance "Downtown" "Airport" : ℚ) ≤ 249 / 10) ∧
    mockDistance "Downtown" "Downtown" = 5 ∧
    ∃ f, computeFare "Cab" (mockDistance "Downtown" "Airport") = some f ∧
      0 < f) :=
  ⟨by decide, mock_distance_bounds "Downtown" "Airport" "Cab" (by decide)⟩

end CabBooking
